import Mathlib

/-!
Verification of the report-rendering script `scripts/plotResults.py`.

The script loads a CSV of experiment results, splits the rows into an
INC-enabled cohort (`INC == 1`) and a traditional cohort (`INC == 0`),
and renders four line charts whose x-axis ticks are ten log-spaced
values spanning the combined `CompNodes` range of the two cohorts.

Shallow embedding notes:
* A CSV row is a `ResultRow` with rational-valued fields (pandas parses
  the numeric columns; exact rationals stand in for the parsed numbers).
* pandas reductions (`Series.min` / `Series.max`) on an empty series
  return IEEE NaN; we model such a possibly-NaN value as `Option ℚ`
  with `none` for NaN.
* Python's two-argument `max(a, b)` keeps `a` unless `b > a`; since every
  comparison with NaN is false, `max(nan, x) = nan` while `max(x, nan) = x`.
  `pyMax` / `pyMin` reproduce this first-argument bias exactly.
* `np.logspace(a, b, num=10)` is the list `10 ** (a + i * (b - a) / 9)`
  for `i = 0, …, 9`, modelled over `ℝ` with `Real.rpow` and `Real.logb`.
* Filesystem and process effects (`os.path.exists`, `print`, `sys.exit`,
  `os.makedirs`, `plt.savefig`) are modelled by an abstract `World`
  (file-existence predicate plus CSV parse) and a `RunResult` record of
  the observable effects of one run.
-/

/-- One parsed CSV record: the computing-node count, the `INC` flag column,
and the four metric columns. -/
structure ResultRow where
  compNodes : ℚ
  inc : ℚ
  timingCost : ℚ
  bandwidthUsage_Msg : ℚ
  bandwidthUsage_Byte : ℚ
  complTimeDiff : ℚ
deriving DecidableEq, Repr

/-- `inc_enabled = data[data['INC'] == 1]` (plotResults.py line 90). -/
def incEnabled (data : List ResultRow) : List ResultRow :=
  data.filter (fun r => decide (r.inc = 1))

/-- `traditional = data[data['INC'] == 0]` (plotResults.py line 91). -/
def traditional (data : List ResultRow) : List ResultRow :=
  data.filter (fun r => decide (r.inc = 0))

/-- A row of the INC-enabled cohort (flag = 1) used in concrete witnesses. -/
def rowInc : ResultRow :=
  { compNodes := 10, inc := 1, timingCost := 5, bandwidthUsage_Msg := 3
    bandwidthUsage_Byte := 40, complTimeDiff := 2 }

/-- A row of the traditional cohort (flag = 0) used in concrete witnesses. -/
def rowTrad : ResultRow :=
  { compNodes := 1000, inc := 0, timingCost := 8, bandwidthUsage_Msg := 7
    bandwidthUsage_Byte := 90, complTimeDiff := 4 }

/-- A row whose flag is neither 0 nor 1, hence excluded from both cohorts. -/
def rowOther : ResultRow :=
  { compNodes := 100, inc := 2, timingCost := 6, bandwidthUsage_Msg := 5
    bandwidthUsage_Byte := 60, complTimeDiff := 3 }

/-- `series.min()` of a pandas numeric series: NaN (`none`) on an empty
series, the least element otherwise. -/
def seriesMin (xs : List ℚ) : Option ℚ :=
  match xs with
  | [] => none
  | x :: rest => some (rest.foldl min x)

/-- `series.max()` of a pandas numeric series: NaN (`none`) on an empty
series, the greatest element otherwise. -/
def seriesMax (xs : List ℚ) : Option ℚ :=
  match xs with
  | [] => none
  | x :: rest => some (rest.foldl max x)

/-- Python's builtin `min(a, b)`: keeps `a` unless `b < a`.  Every
comparison against NaN is false, so a NaN first argument wins and a NaN
second argument is discarded. -/
def pyMin (a b : Option ℚ) : Option ℚ :=
  match a, b with
  | none, _ => none
  | some x, none => some x
  | some x, some y => if y < x then some y else some x

/-- Python's builtin `max(a, b)`: keeps `a` unless `b > a`.  Every
comparison against NaN is false, so a NaN first argument wins and a NaN
second argument is discarded. -/
def pyMax (a b : Option ℚ) : Option ℚ :=
  match a, b with
  | none, _ => none
  | some x, none => some x
  | some x, some y => if x < y then some y else some x

/-- `min_comp_nodes = min(inc_enabled['CompNodes'].min(), traditional['CompNodes'].min())`
as written in each plot function (e.g. plotResults.py line 19). -/
def minCompNodes (inc trad : List ResultRow) : Option ℚ :=
  pyMin (seriesMin (inc.map (fun r => r.compNodes)))
    (seriesMin (trad.map (fun r => r.compNodes)))

/-- `max_comp_nodes = max(inc_enabled['CompNodes'].max(), traditional['CompNodes'].max())`
as written in each plot function (e.g. plotResults.py line 18). -/
def maxCompNodes (inc trad : List ResultRow) : Option ℚ :=
  pyMax (seriesMax (inc.map (fun r => r.compNodes)))
    (seriesMax (trad.map (fun r => r.compNodes)))

/-- `np.logspace(a, b, num)`: the `num` values `10 ** (a + i * (b - a) / (num - 1))`
for `i = 0, …, num - 1` (real-number model of the float computation). -/
noncomputable def logspace (a b : ℝ) (num : ℕ) : List ℝ :=
  (List.range num).map (fun (i : ℕ) => (10 : ℝ) ^ (a + (i : ℝ) * (b - a) / ((num : ℝ) - 1)))

/-- Tick computation of `plot_timing_cost` (plotResults.py lines 18–20):
combined min/max of `CompNodes` followed by
`np.logspace(np.log10(min), np.log10(max), num=10)`.  `none` is the NaN
outcome that makes the subsequent `int(tick)` label conversion raise a
`ValueError`. -/
noncomputable def plot_timing_cost_ticks (inc trad : List ResultRow) : Option (List ℝ) :=
  match minCompNodes inc trad, maxCompNodes inc trad with
  | some lo, some hi => some (logspace (Real.logb 10 (lo : ℝ)) (Real.logb 10 (hi : ℝ)) 10)
  | _, _ => none

/-- Tick computation of `plot_bandwidth_usage_msg` (plotResults.py lines 37–39),
a verbatim copy of the one in `plot_timing_cost`. -/
noncomputable def plot_bandwidth_usage_msg_ticks (inc trad : List ResultRow) : Option (List ℝ) :=
  match minCompNodes inc trad, maxCompNodes inc trad with
  | some lo, some hi => some (logspace (Real.logb 10 (lo : ℝ)) (Real.logb 10 (hi : ℝ)) 10)
  | _, _ => none

/-- Tick computation of `plot_bandwidth_usage_byte` (plotResults.py lines 56–58),
a verbatim copy of the one in `plot_timing_cost`. -/
noncomputable def plot_bandwidth_usage_byte_ticks (inc trad : List ResultRow) : Option (List ℝ) :=
  match minCompNodes inc trad, maxCompNodes inc trad with
  | some lo, some hi => some (logspace (Real.logb 10 (lo : ℝ)) (Real.logb 10 (hi : ℝ)) 10)
  | _, _ => none

/-- Tick computation of `plot_compl_time_diff` (plotResults.py lines 75–77),
a verbatim copy of the one in `plot_timing_cost`. -/
noncomputable def plot_compl_time_diff_ticks (inc trad : List ResultRow) : Option (List ℝ) :=
  match minCompNodes inc trad, maxCompNodes inc trad with
  | some lo, some hi => some (logspace (Real.logb 10 (lo : ℝ)) (Real.logb 10 (hi : ℝ)) 10)
  | _, _ => none

/-- A traditional-cohort row at 10 nodes, for the degenerate-range witness. -/
def rowTrad10 : ResultRow :=
  { compNodes := 10, inc := 0, timingCost := 9, bandwidthUsage_Msg := 8
    bandwidthUsage_Byte := 95, complTimeDiff := 5 }

/-- An INC-enabled row at 10 nodes with different metric values than `rowInc`,
for the metric-independence witness. -/
def rowInc2 : ResultRow :=
  { compNodes := 10, inc := 1, timingCost := 50, bandwidthUsage_Msg := 30
    bandwidthUsage_Byte := 400, complTimeDiff := 20 }

/-- Whether a chart render raises before `plt.savefig`: the `int(tick)` label
conversion raises when a tick is NaN (combined min/max is NaN) and
`np.log10` yields NaN or `-inf` when the combined minimum is nonpositive,
which also makes `int(tick)` raise.  When the minimum is positive every tick
is a finite positive float and the render completes. -/
def renderFails (inc trad : List ResultRow) : Bool :=
  match minCompNodes inc trad with
  | none => true
  | some lo => decide (lo ≤ 0)

/-- The four metrics plotted, one per chart function. -/
inductive Metric where
  | timingCost
  | bandwidthUsageMsg
  | bandwidthUsageByte
  | complTimeDiff
deriving DecidableEq, Repr

/-- The metric column each plot function reads from a row. -/
def metricValue (m : Metric) (r : ResultRow) : ℚ :=
  match m with
  | .timingCost => r.timingCost
  | .bandwidthUsageMsg => r.bandwidthUsage_Msg
  | .bandwidthUsageByte => r.bandwidthUsage_Byte
  | .complTimeDiff => r.complTimeDiff

/-- The fixed destination file of each plot function's `plt.savefig`. -/
def outputFile (m : Metric) : String :=
  match m with
  | .timingCost => "results/TimingCost.png"
  | .bandwidthUsageMsg => "results/BandwidthUsage_Msg.png"
  | .bandwidthUsageByte => "results/BandwidthUsage_Byte.png"
  | .complTimeDiff => "results/ComplTimeDiff.png"

/-- The data shared by the four chart renders: the `inc_enabled` and
`traditional` cohorts produced by the split. -/
structure PlotState where
  incCohort : List ResultRow
  tradCohort : List ResultRow
deriving DecidableEq, Repr

/-- What one plot function draws: the destination file and the two line
series (`CompNodes` against the metric), read from the cohorts it receives. -/
structure RenderOutput where
  metric : Metric
  file : String
  seriesInc : List (ℚ × ℚ)
  seriesTrad : List (ℚ × ℚ)
deriving DecidableEq, Repr

/-- One chart render (`plot_*`, plotResults.py lines 7–81): reads the two
cohorts, draws one series per cohort and saves one file.  No plot function
assigns to `inc_enabled` or `traditional` (they are only read on the
`plt.plot` and tick lines), so the state a render returns is the state it
received. -/
def runRender (m : Metric) (s : PlotState) : PlotState × RenderOutput :=
  (s,
    { metric := m
      file := outputFile m
      seriesInc := s.incCohort.map (fun r => (r.compNodes, metricValue m r))
      seriesTrad := s.tradCohort.map (fun r => (r.compNodes, metricValue m r)) })

/-- The four render calls of `visualize_data` (lines 97–100), in order, each
receiving the state left by the previous one. -/
def runAllRenders (s : PlotState) : PlotState × List RenderOutput :=
  let p1 := runRender Metric.timingCost s
  let p2 := runRender Metric.bandwidthUsageMsg p1.1
  let p3 := runRender Metric.bandwidthUsageByte p2.1
  let p4 := runRender Metric.complTimeDiff p3.1
  (p4.1, [p1.2, p2.2, p3.2, p4.2])

/-- Ambient filesystem: which paths exist, and the rows `pd.read_csv` yields
for a path. -/
structure World where
  fileExists : String → Bool
  parse : String → List ResultRow

/-- Observable effects of one run: process exit code, lines printed to
standard output, whether `results/` was created, the image files written (in
order), and whether the run died on an uncaught exception. -/
structure RunResult where
  exitCode : ℕ
  stdout : List String
  createdResultsDir : Bool
  imagesWritten : List String
  crashed : Bool
deriving DecidableEq, Repr

/-- The four image files, in the order the renders write them. -/
def imageFiles : List String :=
  ["results/TimingCost.png", "results/BandwidthUsage_Msg.png",
   "results/BandwidthUsage_Byte.png", "results/ComplTimeDiff.png"]

/-- The usage line printed on a bad invocation (plotResults.py line 104). -/
def usageMessage : String := "Usage: python plotResults.py [<csv_file_path>]"

/-- `visualize_data` (plotResults.py lines 83–100): checks file existence
before any parse, prints and exits 1 when the file is missing; otherwise
parses, splits into the two cohorts, creates `results/` if absent, and runs
the four renders.  A failing tick computation raises before any
`plt.savefig`, and all four renders share the same cohorts, so a crashing
run writes no image; otherwise all four images are written. -/
def visualize_data (w : World) (csv_file_path : String) : RunResult :=
  if w.fileExists csv_file_path = false then
    { exitCode := 1
      stdout := ["File not found: " ++ csv_file_path]
      createdResultsDir := false
      imagesWritten := []
      crashed := false }
  else if renderFails (incEnabled (w.parse csv_file_path))
      (traditional (w.parse csv_file_path)) then
    { exitCode := 1
      stdout := []
      createdResultsDir := !w.fileExists "results"
      imagesWritten := []
      crashed := true }
  else
    { exitCode := 0
      stdout := []
      createdResultsDir := !w.fileExists "results"
      imagesWritten := imageFiles
      crashed := false }

/-- The `__main__` block (plotResults.py lines 102–108): more than one
positional argument prints the usage line and exits 1; otherwise the single
optional argument (default `result.csv`) is the CSV path.  `argv` models
`sys.argv`, whose element 0 is the script name, so two or more positional
arguments means `argv.length > 2`. -/
def mainProg (argv : List String) (w : World) : RunResult :=
  if argv.length > 2 then
    { exitCode := 1
      stdout := [usageMessage]
      createdResultsDir := false
      imagesWritten := []
      crashed := false }
  else
    visualize_data w (if argv.length = 2 then argv.getD 1 "result.csv" else "result.csv")

/-- A world in which no path exists, for the missing-file witnesses. -/
def worldMissing : World :=
  { fileExists := fun _ => false, parse := fun _ => [rowInc, rowTrad] }

/-- A world in which every path exists and the CSV parses to three rows,
for the successful-run witnesses. -/
def worldGood : World :=
  { fileExists := fun _ => true, parse := fun _ => [rowInc, rowTrad, rowOther] }

lemma logb_ten_ten : Real.logb 10 10 = 1 :=
  Real.logb_self_eq_one (by norm_num)

lemma logb_ten_thousand : Real.logb 10 1000 = 3 := by
  have h : (1000 : ℝ) = (10 : ℝ) ^ ((3 : ℕ) : ℝ) := by
    rw [Real.rpow_natCast]
    norm_num
  rw [h, Real.logb_rpow (by norm_num) (by norm_num)]
  norm_num

lemma logspace_one_three_length : (logspace 1 3 10).length = 10 := by
  unfold logspace
  rw [List.length_map, List.length_range]

lemma rpow_ten_lt {x y : ℝ} (h : x < y) : (10 : ℝ) ^ x < (10 : ℝ) ^ y :=
  (Real.rpow_lt_rpow_left_iff (by norm_num)).mpr h

lemma logspace_one_three_chain :
    (logspace 1 3 10).Chain' (fun s t => s < t) := by
  unfold logspace
  rw [show List.range 10 = [0, 1, 2, 3, 4, 5, 6, 7, 8, 9] from by decide]
  simp only [List.map_cons, List.map_nil, List.chain'_cons, List.chain'_singleton, and_true]
  refine ⟨?_, ?_, ?_, ?_, ?_, ?_, ?_, ?_, ?_⟩ <;>
    exact rpow_ten_lt (by push_cast; norm_num)

lemma logspace_one_three_head : (logspace 1 3 10).head? = some 10 := by
  unfold logspace
  rw [show List.range 10 = [0, 1, 2, 3, 4, 5, 6, 7, 8, 9] from by decide]
  simp only [List.map_cons, List.head?_cons]
  have h : (1 : ℝ) + ((0 : ℕ) : ℝ) * ((3 : ℝ) - 1) / (((10 : ℕ) : ℝ) - 1) = 1 := by
    norm_num
  rw [h, Real.rpow_one]

lemma logspace_one_three_last : (logspace 1 3 10).getLast? = some 1000 := by
  unfold logspace
  rw [show List.range 10 = [0, 1, 2, 3, 4, 5, 6, 7, 8, 9] from by decide]
  simp only [List.map_cons, List.map_nil, List.getLast?_cons_cons, List.getLast?_singleton]
  have h : (1 : ℝ) + ((9 : ℕ) : ℝ) * ((3 : ℝ) - 1) / (((10 : ℕ) : ℝ) - 1) = ((3 : ℕ) : ℝ) := by
    norm_num
  rw [h, Real.rpow_natCast]
  norm_num

/-- C2: whenever the combined `CompNodes` values of the two cohorts have
minimum 10 and maximum 1000 (as computed by the plot functions), the
generated tick sequence exists (no NaN), has exactly 10 strictly
increasing values, and starts at 10 and ends at 1000. -/
theorem ticks_span_ten_to_thousand (inc trad : List ResultRow)
    (hmin : minCompNodes inc trad = some 10)
    (hmax : maxCompNodes inc trad = some 1000) :
    ∃ ts : List ℝ, plot_timing_cost_ticks inc trad = some ts ∧
      ts.length = 10 ∧ ts.Chain' (fun s t => s < t) ∧
      ts.head? = some 10 ∧ ts.getLast? = some 1000 := by
  have hc10 : (((10 : ℚ) : ℝ)) = (10 : ℝ) := by norm_num
  have hc1000 : (((1000 : ℚ) : ℝ)) = (1000 : ℝ) := by norm_num
  refine ⟨logspace 1 3 10, ?_, logspace_one_three_length, logspace_one_three_chain,
    logspace_one_three_head, logspace_one_three_last⟩
  unfold plot_timing_cost_ticks
  rw [hmin, hmax]
  show some (logspace (Real.logb 10 ((10 : ℚ) : ℝ)) (Real.logb 10 ((1000 : ℚ) : ℝ)) 10) =
    some (logspace 1 3 10)
  rw [hc10, hc1000, logb_ten_ten, logb_ten_thousand]

/-- Concrete instantiation of `ticks_span_ten_to_thousand`: one cohort at
10 nodes and one at 1000 nodes produce 10 strictly increasing ticks from
10 to 1000. -/
theorem ticks_span_ten_to_thousand_witness :
    ∃ ts : List ℝ, plot_timing_cost_ticks [rowInc] [rowTrad] = some ts ∧
      ts.length = 10 ∧ ts.Chain' (fun s t => s < t) ∧
      ts.head? = some 10 ∧ ts.getLast? = some 1000 :=
  ticks_span_ten_to_thousand [rowInc] [rowTrad] (by decide) (by decide)

/-- C1: `split` partitions every `ResultSet` into the INC-enabled and the
traditional cohort: their union is contained in the original rows, their
intersection is empty, and every row excluded from both cohorts has an
`INC` value other than 0 or 1.  Both filters are total functions, so
excluded rows raise no error. -/
theorem split_partitions (data : List ResultRow) :
    (∀ r : ResultRow, r ∈ incEnabled data ∨ r ∈ traditional data → r ∈ data) ∧
    (∀ r : ResultRow, ¬(r ∈ incEnabled data ∧ r ∈ traditional data)) ∧
    (∀ r : ResultRow, r ∈ data → r ∉ incEnabled data → r ∉ traditional data →
      r.inc ≠ 0 ∧ r.inc ≠ 1) := by
  refine ⟨?_, ?_, ?_⟩
  · rintro r (hr | hr)
    · exact (List.mem_filter.mp hr).1
    · exact (List.mem_filter.mp hr).1
  · rintro r ⟨h1, h0⟩
    have e1 : r.inc = 1 := by simpa using (List.mem_filter.mp h1).2
    have e0 : r.inc = 0 := by simpa using (List.mem_filter.mp h0).2
    rw [e1] at e0
    exact one_ne_zero e0
  · intro r hr h1 h0
    constructor
    · intro e0
      exact h0 (List.mem_filter.mpr ⟨hr, by simpa using e0⟩)
    · intro e1
      exact h1 (List.mem_filter.mpr ⟨hr, by simpa using e1⟩)

/-- Concrete instantiation of `split_partitions` on a three-row data set:
the flag-2 row is excluded from both cohorts and its flag is neither 0 nor 1. -/
theorem split_partitions_witness :
    rowOther ∈ [rowInc, rowTrad, rowOther] ∧
    rowOther ∉ incEnabled [rowInc, rowTrad, rowOther] ∧
    rowOther ∉ traditional [rowInc, rowTrad, rowOther] ∧
    rowOther.inc ≠ 0 ∧ rowOther.inc ≠ 1 := by
  refine ⟨by decide, by decide, by decide, ?_⟩
  exact (split_partitions [rowInc, rowTrad, rowOther]).2.2 rowOther
    (by decide) (by decide) (by decide)

lemma pyMin_some_left (x : ℚ) (b : Option ℚ) : ∃ z, pyMin (some x) b = some z := by
  cases b with
  | none => exact ⟨x, rfl⟩
  | some y =>
    by_cases h : y < x
    · exact ⟨y, by simp [pyMin, h]⟩
    · exact ⟨x, by simp [pyMin, h]⟩

lemma pyMax_some_left (x : ℚ) (b : Option ℚ) : ∃ z, pyMax (some x) b = some z := by
  cases b with
  | none => exact ⟨x, rfl⟩
  | some y =>
    by_cases h : x < y
    · exact ⟨y, by simp [pyMax, h]⟩
    · exact ⟨x, by simp [pyMax, h]⟩

/-- C3 counterexample: a cohort pair in which one cohort (the traditional
one) has zero rows, yet the tick computation does not fail: pandas returns
NaN for the empty series, but Python's `max(a, b)` keeps its first argument
unless `b > a`, and `nan > a` is false, so the NaN from the second argument
is silently dropped and the ticks are computed from the INC cohort alone. -/
theorem ticks_empty_traditional_no_failure :
    ([] : List ResultRow) = [] ∧
    (plot_timing_cost_ticks [rowInc] []).isSome = true := by
  exact ⟨rfl, rfl⟩

/-- C3 (amended): the tick computation fails (NaN ticks, hence a
`ValueError` at the `int(tick)` label conversion) exactly when the
INC-enabled cohort — the first argument of `min`/`max` — has zero rows; an
empty traditional cohort alone does not make it fail. -/
theorem ticks_fail_iff_inc_cohort_empty (inc trad : List ResultRow) :
    plot_timing_cost_ticks inc trad = none ↔ inc = [] := by
  cases inc with
  | nil => exact iff_of_true rfl rfl
  | cons r rest =>
    obtain ⟨lo, hlo⟩ : ∃ lo, minCompNodes (r :: rest) trad = some lo := by
      simp only [minCompNodes, List.map_cons, seriesMin]
      exact pyMin_some_left _ _
    obtain ⟨hi, hhi⟩ : ∃ hi, maxCompNodes (r :: rest) trad = some hi := by
      simp only [maxCompNodes, List.map_cons, seriesMax]
      exact pyMax_some_left _ _
    simp [plot_timing_cost_ticks, hlo, hhi]

lemma logspace_const_elem (a : ℝ) (i : ℕ) :
    (10 : ℝ) ^ (a + (i : ℝ) * (a - a) / (((10 : ℕ) : ℝ) - 1)) = (10 : ℝ) ^ a := by
  have he : a + (i : ℝ) * (a - a) / (((10 : ℕ) : ℝ) - 1) = a := by ring
  rw [he]

/-- C10: when the combined `CompNodes` minimum and maximum coincide at a
single positive value `v`, the tick sequence is 10 copies of `v` — not
strictly increasing — and the render still succeeds. -/
theorem ticks_degenerate_single_value (inc trad : List ResultRow) (v : ℚ)
    (hv : 0 < v) (hmin : minCompNodes inc trad = some v)
    (hmax : maxCompNodes inc trad = some v) :
    ∃ ts : List ℝ, plot_timing_cost_ticks inc trad = some ts ∧
      ts.length = 10 ∧ (∀ t ∈ ts, t = (v : ℝ)) ∧
      ¬ts.Chain' (fun s t => s < t) ∧ renderFails inc trad = false := by
  have hvr : (0 : ℝ) < (v : ℝ) := by exact_mod_cast hv
  have helem : ∀ i : ℕ,
      (10 : ℝ) ^ (Real.logb 10 (v : ℝ) + (i : ℝ) *
        (Real.logb 10 (v : ℝ) - Real.logb 10 (v : ℝ)) / (((10 : ℕ) : ℝ) - 1)) = (v : ℝ) := by
    intro i
    rw [logspace_const_elem]
    exact Real.rpow_logb (by norm_num) (by norm_num) hvr
  refine ⟨logspace (Real.logb 10 (v : ℝ)) (Real.logb 10 (v : ℝ)) 10, ?_, ?_, ?_, ?_, ?_⟩
  · unfold plot_timing_cost_ticks
    rw [hmin, hmax]
  · unfold logspace
    rw [List.length_map, List.length_range]
  · intro t ht
    unfold logspace at ht
    obtain ⟨i, _, hEq⟩ := List.mem_map.mp ht
    rw [← hEq]
    exact helem i
  · intro hchain
    unfold logspace at hchain
    rw [show List.range 10 = [0, 1, 2, 3, 4, 5, 6, 7, 8, 9] from by decide] at hchain
    simp only [List.map_cons, List.map_nil, List.chain'_cons] at hchain
    have h01 := hchain.1
    rw [helem 0, helem 1] at h01
    exact lt_irrefl _ h01
  · unfold renderFails
    rw [hmin]
    simpa using not_le_of_lt hv

/-- Concrete instantiation of `ticks_degenerate_single_value`: both cohorts
at 10 nodes give 10 equal ticks and a successful render. -/
theorem ticks_degenerate_single_value_witness :
    ∃ ts : List ℝ, plot_timing_cost_ticks [rowInc] [rowTrad10] = some ts ∧
      ts.length = 10 ∧ (∀ t ∈ ts, t = ((10 : ℚ) : ℝ)) ∧
      ¬ts.Chain' (fun s t => s < t) ∧ renderFails [rowInc] [rowTrad10] = false :=
  ticks_degenerate_single_value [rowInc] [rowTrad10] 10 (by decide) (by decide) (by decide)

/-- C8: the four plot functions contain the same tick computation, so on any
cohort pair (the claim speaks of non-empty ones) all four produce the same
tick sequence, and that sequence depends only on the `CompNodes` columns of
the two cohorts: replacing the cohorts by any others with the same
`CompNodes` columns leaves the ticks unchanged. -/
theorem ticks_identical_across_metrics (inc trad inc2 trad2 : List ResultRow)
    (_hne1 : inc ≠ []) (_hne2 : trad ≠ [])
    (hA : inc.map (fun r => r.compNodes) = inc2.map (fun r => r.compNodes))
    (hB : trad.map (fun r => r.compNodes) = trad2.map (fun r => r.compNodes)) :
    plot_bandwidth_usage_msg_ticks inc trad = plot_timing_cost_ticks inc trad ∧
    plot_bandwidth_usage_byte_ticks inc trad = plot_timing_cost_ticks inc trad ∧
    plot_compl_time_diff_ticks inc trad = plot_timing_cost_ticks inc trad ∧
    plot_timing_cost_ticks inc2 trad2 = plot_timing_cost_ticks inc trad := by
  refine ⟨rfl, rfl, rfl, ?_⟩
  unfold plot_timing_cost_ticks minCompNodes maxCompNodes
  rw [hA, hB]

/-- Concrete instantiation of `ticks_identical_across_metrics` on non-empty
cohorts, with a second INC cohort sharing only the `CompNodes` column. -/
theorem ticks_identical_across_metrics_witness :
    plot_bandwidth_usage_msg_ticks [rowInc] [rowTrad] =
      plot_timing_cost_ticks [rowInc] [rowTrad] ∧
    plot_bandwidth_usage_byte_ticks [rowInc] [rowTrad] =
      plot_timing_cost_ticks [rowInc] [rowTrad] ∧
    plot_compl_time_diff_ticks [rowInc] [rowTrad] =
      plot_timing_cost_ticks [rowInc] [rowTrad] ∧
    plot_timing_cost_ticks [rowInc2] [rowTrad] =
      plot_timing_cost_ticks [rowInc] [rowTrad] :=
  ticks_identical_across_metrics [rowInc] [rowTrad] [rowInc2] [rowTrad]
    (by decide) (by decide) (by decide) (by decide)

/-- C4: with an input path that names no existing file, the program prints
the "File not found" message to standard output and exits with status 1,
and the check precedes any parsing: the outcome does not depend on what the
parser would return. -/
theorem missing_file_reports_and_exits (w : World) (path : String)
    (h : w.fileExists path = false) :
    (visualize_data w path).exitCode = 1 ∧
    (visualize_data w path).stdout = ["File not found: " ++ path] ∧
    (∀ p : String → List ResultRow,
      visualize_data { fileExists := w.fileExists, parse := p } path =
        visualize_data w path) := by
  refine ⟨?_, ?_, ?_⟩
  · unfold visualize_data
    rw [if_pos h]
  · unfold visualize_data
    rw [if_pos h]
  · intro p
    unfold visualize_data
    rw [if_pos h, if_pos h]

/-- Concrete instantiation of `missing_file_reports_and_exits` in a world
with no files. -/
theorem missing_file_reports_and_exits_witness :
    (visualize_data worldMissing "data.csv").exitCode = 1 ∧
    (visualize_data worldMissing "data.csv").stdout =
      ["File not found: " ++ "data.csv"] ∧
    (∀ p : String → List ResultRow,
      visualize_data { fileExists := worldMissing.fileExists, parse := p } "data.csv" =
        visualize_data worldMissing "data.csv") :=
  missing_file_reports_and_exits worldMissing "data.csv" rfl

/-- C9: on the missing-file path the program performs no side effect: the
`results/` directory is not created and no image file is written. -/
theorem missing_file_no_side_effects (w : World) (path : String)
    (h : w.fileExists path = false) :
    (visualize_data w path).createdResultsDir = false ∧
    (visualize_data w path).imagesWritten = [] := by
  unfold visualize_data
  rw [if_pos h]
  exact ⟨rfl, rfl⟩

/-- Concrete instantiation of `missing_file_no_side_effects` in a world
with no files. -/
theorem missing_file_no_side_effects_witness :
    (visualize_data worldMissing "result.csv").createdResultsDir = false ∧
    (visualize_data worldMissing "result.csv").imagesWritten = [] :=
  missing_file_no_side_effects worldMissing "result.csv" rfl

/-- C5: `sys.argv` handling: with the script name plus two or more
positional arguments the program prints the usage line and exits with
status 1; with the script name alone it runs on `result.csv`; with the
script name plus exactly one argument it runs on that argument. -/
theorem cli_argument_handling (w : World) (name a b p : String)
    (rest : List String) :
    mainProg (name :: a :: b :: rest) w =
      { exitCode := 1, stdout := [usageMessage], createdResultsDir := false,
        imagesWritten := [], crashed := false } ∧
    mainProg [name] w = visualize_data w "result.csv" ∧
    mainProg [name, p] w = visualize_data w p := by
  refine ⟨?_, rfl, rfl⟩
  have hlen : (name :: a :: b :: rest).length > 2 := by
    simp only [List.length_cons]
    omega
  unfold mainProg
  rw [if_pos hlen]

/-- Concrete instantiation of `cli_argument_handling`: two positional
arguments give the usage exit, zero and one select the expected paths. -/
theorem cli_argument_handling_witness :
    mainProg ["plotResults.py", "one.csv", "two.csv"] worldMissing =
      { exitCode := 1, stdout := [usageMessage], createdResultsDir := false,
        imagesWritten := [], crashed := false } ∧
    mainProg ["plotResults.py"] worldMissing =
      visualize_data worldMissing "result.csv" ∧
    mainProg ["plotResults.py", "in.csv"] worldMissing =
      visualize_data worldMissing "in.csv" :=
  cli_argument_handling worldMissing "plotResults.py" "one.csv" "two.csv" "in.csv" []

/-- C6: a successful run (the input file exists and the renders do not
raise) exits 0, creates `results/` exactly when it is absent, and writes
exactly the four fixed image files, one per render call, with no
duplicates; the list of written files is the same whatever files already
exist, so existing files of the same names are overwritten, not appended
to. -/
theorem successful_run_writes_four_images (w : World) (path : String)
    (hfile : w.fileExists path = true)
    (hok : renderFails (incEnabled (w.parse path)) (traditional (w.parse path)) = false) :
    (visualize_data w path).exitCode = 0 ∧
    (visualize_data w path).crashed = false ∧
    (visualize_data w path).createdResultsDir = !w.fileExists "results" ∧
    (visualize_data w path).imagesWritten =
      ["results/TimingCost.png", "results/BandwidthUsage_Msg.png",
       "results/BandwidthUsage_Byte.png", "results/ComplTimeDiff.png"] ∧
    (visualize_data w path).imagesWritten =
      [Metric.timingCost, Metric.bandwidthUsageMsg,
       Metric.bandwidthUsageByte, Metric.complTimeDiff].map outputFile ∧
    (visualize_data w path).imagesWritten.Nodup := by
  have h1 : ¬(w.fileExists path = false) := by simp [hfile]
  have h2 : ¬(renderFails (incEnabled (w.parse path)) (traditional (w.parse path)) = true) := by
    simp [hok]
  unfold visualize_data
  rw [if_neg h1, if_neg h2]
  refine ⟨rfl, rfl, rfl, rfl, rfl, ?_⟩
  show imageFiles.Nodup
  decide

/-- Concrete instantiation of `successful_run_writes_four_images` in a
world where the input exists and parses to one row per cohort plus an
excluded row. -/
theorem successful_run_writes_four_images_witness :
    (visualize_data worldGood "result.csv").exitCode = 0 ∧
    (visualize_data worldGood "result.csv").crashed = false ∧
    (visualize_data worldGood "result.csv").createdResultsDir =
      !worldGood.fileExists "results" ∧
    (visualize_data worldGood "result.csv").imagesWritten =
      ["results/TimingCost.png", "results/BandwidthUsage_Msg.png",
       "results/BandwidthUsage_Byte.png", "results/ComplTimeDiff.png"] ∧
    (visualize_data worldGood "result.csv").imagesWritten =
      [Metric.timingCost, Metric.bandwidthUsageMsg,
       Metric.bandwidthUsageByte, Metric.complTimeDiff].map outputFile ∧
    (visualize_data worldGood "result.csv").imagesWritten.Nodup :=
  successful_run_writes_four_images worldGood "result.csv" rfl (by decide)

/-- C7: no render mutates the cohorts: each of the four chart renders
returns exactly the state it received, so after all four renders the two
cohorts (all rows and field values) are unchanged, and every render's
output is the one computed from the original cohort data. -/
theorem renders_do_not_mutate_cohorts (s : PlotState) :
    (runAllRenders s).1 = s ∧
    (∀ m : Metric, (runRender m s).1 = s) ∧
    (runAllRenders s).2 = [Metric.timingCost, Metric.bandwidthUsageMsg,
      Metric.bandwidthUsageByte, Metric.complTimeDiff].map (fun m => (runRender m s).2) :=
  ⟨rfl, fun _ => rfl, rfl⟩
